import Mathlib

/-!
Verification development for the telehealth intake platform
(conversation manager, booking and invoice engine, appointment queue,
triage gate, cancellation propagation).

The Python routes are shallowly embedded as pure Lean functions over an
explicit record-store state (`DB`).  Conventions used throughout:

* Database rows are Lean structures; a table is a `List` of rows kept in
  insertion order.  `supabase.insert` / Mongo `insert_one` append a row;
  `supabase.update` / Mongo `update_one` with an id filter map an update
  function over the rows whose id matches.
* Generated UUIDs and wall-clock timestamps are passed in as explicit
  parameters (`appt_id`, `now`, ...): the embedding is deterministic.
* Timestamps are kept as their ISO-8601 strings, exactly as the routes
  store and compare them.  Comparison of such strings is lexicographic by
  code point, modelled by `strLeB` below (the order Python uses on `str`).
* `HTTPException(status_code, detail)` is modelled by the `HErr` structure;
  an operation returns `Except HErr DB`.  An `.error` result performs no
  store writes (the routes raise before any write on these paths).
* Monetary prices in the fee table are the exact decimal values
  260.00, 0.00, 300.00, 160.00, 400.00; they are modelled as rationals.
* Display-name enrichment that the routes attach to responses
  (patient_name and similar read-time conveniences) does not affect any
  stored record or any ordering and is modelled only where a stored
  record depends on it (system-message contents).
-/

/-- Lexicographic code-point comparison of character lists, the order
Python uses when comparing strings (used by the queue sort on ISO
timestamp strings). -/
def lexLe : List Char → List Char → Bool
  | [], _ => true
  | _ :: _, [] => false
  | c :: cs, d :: ds =>
    decide (c.toNat < d.toNat) || (decide (c.toNat = d.toNat) && lexLe cs ds)

/-- String comparison via `lexLe` on the underlying character lists. -/
def strLeB (a b : String) : Bool := lexLe a.data b.data

/-- Boolean prefix test on character lists. -/
def listPrefixB : List Char → List Char → Bool
  | [], _ => true
  | _ :: _, [] => false
  | c :: cs, d :: ds => decide (c.toNat = d.toNat) && listPrefixB cs ds

/-- Python `s.startswith(pre)`, modelled on the character lists. -/
def strStartsWithB (s pre : String) : Bool := listPrefixB pre.data s.data

/-- Python `s[:100]` (first 100 characters), used for last-message
summaries. -/
def take100 (s : String) : String := ⟨s.data.take 100⟩

/-- Whitespace test used by `trimStr` (space, tab, LF, CR). -/
def isWsChar (c : Char) : Bool :=
  c.toNat = 32 || c.toNat = 9 || c.toNat = 10 || c.toNat = 13

/-- Python `str.strip()` on both ends. -/
def trimStr (s : String) : String :=
  ⟨((s.data.dropWhile isWsChar).reverse.dropWhile isWsChar).reverse⟩

/-- HTTPException: status code plus detail message. -/
structure HErr where
  statusCode : Nat
  detail : String
deriving DecidableEq, Repr

/-- Row of the `profiles` table (the fields the workflow code reads). -/
structure Profile where
  id : String
  firstName : String
  lastName : String
deriving DecidableEq, Repr

/-- Row of the `appointments` table.  Fields a given insert does not set
are `none` (the inserts in `bookings.create_booking` set neither a
booking type nor a priority nor a queue position, unlike the inserts in
`appointments.py`). -/
structure ApptRec where
  id : String
  patientId : String
  clinicianId : Option String
  scheduledAt : String
  consultationType : String
  durationMinutes : Nat
  status : String
  bookingType : Option String
  priority : Option String
  queuePosition : Option Nat
  chiefComplaint : Option String
  symptoms : List String
  severity : Option String
  notes : Option String
  emergencyContactNotified : Option Bool
  symptomAssessmentId : Option String
  clinicId : Option String
  createdAt : Option String
  cancelledAt : Option String
  cancelledBy : Option String
  cancellationReason : Option String
  cancellationDetails : Option String
  lateCancellation : Option Bool
  updatedAt : Option String
deriving DecidableEq, Repr

/-- Row of the `bookings` table. -/
structure BookingRec where
  id : String
  patientId : String
  clinicianId : String
  conversationId : Option String
  appointmentId : Option String
  scheduledAt : String
  durationMinutes : Nat
  serviceType : String
  billingType : String
  status : String
  notes : Option String
  createdBy : String
  invoiceId : Option String
  clinicId : String
deriving DecidableEq, Repr

/-- Row of the `invoices` table. -/
structure InvoiceRec where
  id : String
  bookingId : String
  patientId : String
  serviceType : String
  serviceName : String
  serviceDescription : String
  amount : ℚ
  consultationDate : String
  clinicianId : String
  status : String
  clinicId : String
  paymentReference : Option String
  paidAt : Option String
deriving DecidableEq, Repr

/-- Row of the conversation store (`chat_conversations`).  The chat routes
reach it through Mongo and the booking routes through the Supabase client;
both address records of this shape by id, so the embedding uses one
logical table. -/
structure ConvRec where
  id : String
  patientId : String
  patientName : String
  receptionistId : Option String
  receptionistName : Option String
  status : String
  patientType : Option String
  bookingId : Option String
  lastMessage : Option String
  lastMessageAt : Option String
  unreadCount : Nat
  createdAt : String
  updatedAt : String
deriving DecidableEq, Repr

/-- Row of the message store (`chat_messages`). -/
structure MsgRec where
  id : String
  conversationId : String
  senderId : String
  senderName : String
  senderRole : String
  content : String
  messageType : String
  fileUrl : Option String
  fileName : Option String
  readAt : Option String
  createdAt : Option String
deriving DecidableEq, Repr

/-- Vital signs captured during triage (patient_models.VitalSigns).
Python floats are modelled as exact rationals. -/
structure VitalSigns where
  bloodPressureSystolic : Option Int
  bloodPressureDiastolic : Option Int
  heartRate : Option Int
  respiratoryRate : Option Int
  temperature : Option ℚ
  oxygenSaturation : Option Int
  weight : Option ℚ
  height : Option ℚ
  bmi : Option ℚ
  bloodGlucose : Option ℚ
  painScore : Option Int
deriving DecidableEq, Repr

/-- Python truthiness of an optional float (None and 0.0 are falsy). -/
def truthyQ : Option ℚ → Bool
  | none => false
  | some x => decide (x ≠ 0)

/-- Rounding to one decimal place.  The source uses Python float `round`;
the exact-rational model uses round-half-up, which differs only at exact
ties and is not relied on by any claim. -/
def roundTo1 (q : ℚ) : ℚ := (round (10 * q) : ℤ) / 10

/-- VitalSigns.calculate_bmi: weight in kg over squared height in metres,
rounded to one decimal; None unless weight and height are truthy and the
height is positive. -/
def calculate_bmi (v : VitalSigns) : Option ℚ :=
  if truthyQ v.weight ∧ truthyQ v.height ∧ 0 < v.height.getD 0 then
    some (roundTo1 (v.weight.getD 0 / (v.height.getD 0 / 100) ^ 2))
  else none

/-- Row of the `nurse_triages` table. -/
structure TriageRec where
  id : String
  appointmentId : String
  patientId : String
  nurseId : String
  vitalSigns : VitalSigns
  chiefComplaint : String
  symptomDuration : Option String
  symptomOnset : Option String
  aiUrgency : Option String
  aiUrgencyScore : Option Int
  aiCarePathway : Option String
  aiAssessmentSummary : Option String
  triagePriority : String
  nurseNotes : String
  allergiesConfirmed : Bool
  medicationsConfirmed : Bool
  identityVerified : Bool
  consentObtained : Bool
  medicalAidVerified : Bool
  patientEducationProvided : Bool
  recommendedAction : String
  referralReason : Option String
  doctorNotes : Option String
  readyForDoctor : Bool
  createdAt : String
deriving DecidableEq, Repr

/-- The record store: one list per table, plus the `user_roles` table as
user-id/role pairs. -/
structure DB where
  profiles : List Profile
  roles : List (String × String)
  appointments : List ApptRec
  bookings : List BookingRec
  invoices : List InvoiceRec
  conversations : List ConvRec
  chatMessages : List MsgRec
  triages : List TriageRec
deriving DecidableEq, Repr

/-- Shared update-by-id primitive: apply `g` to every row whose id equals
`i` (the shape of every `supabase.update` / Mongo `update_one` call in the
embedded routes). -/
def updateById {α : Type} (getId : α → String) (i : String) (g : α → α)
    (l : List α) : List α :=
  l.map fun r => if getId r = i then g r else r

/-- get_user_role: first matching row of `user_roles`, defaulting to
the patient role (bookings.py and chat.py both use this lookup). -/
def get_user_role (uid : String) (db : DB) : String :=
  match db.roles.find? (fun p => decide (p.1 = uid)) with
  | some p => p.2
  | none => "patient"

/-- get_user_profile: first matching row of `profiles`. -/
def get_user_profile (uid : String) (db : DB) : Option Profile :=
  db.profiles.find? fun p => decide (p.id = uid)

/-- format_name (bookings.py): full name stripped, or Unknown. -/
def format_name : Option Profile → String
  | none => "Unknown"
  | some p =>
    let s := trimStr (p.firstName ++ " " ++ p.lastName)
    if s = "" then "Unknown" else s

/-- Display name built by chat.py: profile lookup with an
Unknown-User default row, then first and last name joined and stripped. -/
def chatDisplayName (uid : String) (db : DB) : String :=
  let p := (get_user_profile uid db).getD
    { id := uid, firstName := "Unknown", lastName := "User" }
  trimStr (p.firstName ++ " " ++ p.lastName)

/-- bookings.ServiceType enum. -/
inductive ServiceType
  | teleconsultation
  | follow_up_0_3
  | follow_up_4_7
  | script_1_month
  | script_3_months
  | script_6_months
  | medical_forms
deriving DecidableEq, Repr

/-- String value of a ServiceType, as stored. -/
def ServiceType.val : ServiceType → String
  | .teleconsultation => "teleconsultation"
  | .follow_up_0_3 => "follow_up_0_3"
  | .follow_up_4_7 => "follow_up_4_7"
  | .script_1_month => "script_1_month"
  | .script_3_months => "script_3_months"
  | .script_6_months => "script_6_months"
  | .medical_forms => "medical_forms"

/-- bookings.PatientBillingType enum. -/
inductive PatientBillingType
  | medical_aid
  | campus_africa
  | university_student
  | cash
deriving DecidableEq, Repr

/-- String value of a PatientBillingType, as stored. -/
def PatientBillingType.val : PatientBillingType → String
  | .medical_aid => "medical_aid"
  | .campus_africa => "campus_africa"
  | .university_student => "university_student"
  | .cash => "cash"

/-- chat.MessageType enum. -/
inductive MessageType
  | text
  | image
  | system
  | booking_confirmation
deriving DecidableEq, Repr

/-- String value of a MessageType, as stored. -/
def MessageType.val : MessageType → String
  | .text => "text"
  | .image => "image"
  | .system => "system"
  | .booking_confirmation => "booking_confirmation"

/-- appointments.CancellationReason enum. -/
inductive CancellationReason
  | patient_request
  | feeling_better
  | scheduling_conflict
  | found_alternative
  | financial
  | clinician_unavailable
  | emergency
  | other
deriving DecidableEq, Repr

/-- String value of a CancellationReason, as stored. -/
def CancellationReason.val : CancellationReason → String
  | .patient_request => "patient_request"
  | .feeling_better => "feeling_better"
  | .scheduling_conflict => "scheduling_conflict"
  | .found_alternative => "found_alternative"
  | .financial => "financial"
  | .clinician_unavailable => "clinician_unavailable"
  | .emergency => "emergency"
  | .other => "other"

/-- patient_models.TriagePriority enum. -/
inductive TriagePriority
  | red
  | orange
  | yellow
  | green
  | blue
deriving DecidableEq, Repr

/-- String value of a TriagePriority, as stored. -/
def TriagePriority.val : TriagePriority → String
  | .red => "red"
  | .orange => "orange"
  | .yellow => "yellow"
  | .green => "green"
  | .blue => "blue"

/-- Entry of the fee table: display name, price, description. -/
structure FeeItem where
  name : String
  price : ℚ
  description : String
deriving DecidableEq, Repr

/-- FEE_SCHEDULE from bookings.py: the fixed service-type fee table. -/
def FEE_SCHEDULE : ServiceType → FeeItem
  | .teleconsultation =>
    { name := "Tele-consultation (excl. medication)", price := 260,
      description := "Video consultation with Clinical Associate" }
  | .follow_up_0_3 =>
    { name := "Follow-up consultation (day 0 to 3)", price := 0,
      description := "Free follow-up within 3 days of initial consultation" }
  | .follow_up_4_7 =>
    { name := "Follow-up consultation (day 4 to 7)", price := 300,
      description := "Follow-up consultation 4-7 days after initial consultation" }
  | .script_1_month =>
    { name := "Script (excl. tele-consultation) - 1 month", price := 160,
      description := "Prescription only - 1 month supply" }
  | .script_3_months =>
    { name := "Script (excl. tele-consultation) - 3 months", price := 300,
      description := "Prescription only - 3 month supply" }
  | .script_6_months =>
    { name := "Script (excl. tele-consultation) - 6 months", price := 400,
      description := "Prescription only - 6 month supply" }
  | .medical_forms =>
    { name := "Standard Medical Forms", price := 400,
      description := "Medical certificates, forms, and documentation" }

/-- The ChatStatus enum values (chat.py). -/
def chatStatuses : List String :=
  ["new", "active", "booking_pending", "booked", "consultation_complete", "closed"]

/-- Conversation update written by claim_conversation. -/
def claim_conv_update (uid name now : String) (c : ConvRec) : ConvRec :=
  { c with receptionistId := some uid, receptionistName := some name,
           status := "active", updatedAt := now }

/-- Conversation update written by update_conversation_status. -/
def set_status_update (status now : String) (c : ConvRec) : ConvRec :=
  { c with status := status, updatedAt := now }

/-- Conversation update written by create_booking when a conversation is
linked: status booked, booking_id set. -/
def link_booking_update (bid : String) (c : ConvRec) : ConvRec :=
  { c with status := "booked", bookingId := some bid }

/-- Conversation update written by cancel_booking when a conversation is
linked: status active, booking_id cleared. -/
def cancel_booking_conv_update (c : ConvRec) : ConvRec :=
  { c with status := "active", bookingId := none }

/-- Conversation update written by send_message: last-message summary
(first 100 characters), timestamps, unread counter incremented. -/
def msg_conv_update (content now : String) (c : ConvRec) : ConvRec :=
  { c with lastMessage := some (take100 content), lastMessageAt := some now,
           updatedAt := now, unreadCount := c.unreadCount + 1 }

/-- Conversation document inserted by chat.create_conversation. -/
def new_conversation (cid patient_id patient_name initial_message now : String) :
    ConvRec :=
  { id := cid, patientId := patient_id, patientName := patient_name,
    receptionistId := none, receptionistName := none, status := "new",
    patientType := none, bookingId := none,
    lastMessage := some (take100 initial_message), lastMessageAt := some now,
    unreadCount := 1, createdAt := now, updatedAt := now }

/-- chat.create_conversation: insert a new conversation in status new plus
its first message. -/
def create_conversation (initial_message uid conv_id msg_id now : String)
    (db : DB) : DB :=
  let patient_name := chatDisplayName uid db
  let conv := new_conversation conv_id uid patient_name initial_message now
  let msg : MsgRec :=
    { id := msg_id, conversationId := conv_id, senderId := uid,
      senderName := patient_name, senderRole := "patient",
      content := initial_message, messageType := "text", fileUrl := none,
      fileName := none, readAt := none, createdAt := some now }
  { db with conversations := db.conversations ++ [conv],
            chatMessages := db.chatMessages ++ [msg] }

/-- chat.claim_conversation: role gate, 404 on missing conversation,
400 Conflict when a receptionist is already set, otherwise set the
claimer, move status to active and append a system message. -/
def claim_conversation (conversation_id uid msg_id now : String) (db : DB) :
    Except HErr DB :=
  let role := get_user_role uid db
  if role ∉ ["admin", "nurse", "doctor"] then
    .error ⟨403, "Not authorized to claim chats"⟩
  else
    match db.conversations.find? (fun c => decide (c.id = conversation_id)) with
    | none => .error ⟨404, "Conversation not found"⟩
    | some conv =>
      if conv.receptionistId.isSome then
        .error ⟨400, "Conversation already assigned"⟩
      else
        let receptionist_name := chatDisplayName uid db
        let convs1 := updateById ConvRec.id conversation_id
          (claim_conv_update uid receptionist_name now) db.conversations
        let db1 := { db with conversations := convs1 }
        let join_msg : MsgRec :=
          { id := msg_id, conversationId := conversation_id,
            senderId := "system", senderName := "System",
            senderRole := "system",
            content := receptionist_name ++ " has joined the conversation",
            messageType := "system", fileUrl := none, fileName := none,
            readAt := none, createdAt := some now }
        .ok { db1 with chatMessages := db1.chatMessages ++ [join_msg] }

/-- Sequential execution of claim_conversation by a list of callers
(caller id paired with the generated message id); returns the final
state and, per caller, none on success or the error received. -/
def run_claims (conversation_id now : String)
    (callers : List (String × String)) (db : DB) : DB × List (Option HErr) :=
  match callers with
  | [] => (db, [])
  | (uid, mid) :: rest =>
    match claim_conversation conversation_id uid mid now db with
    | .ok db1 =>
      let r := run_claims conversation_id now rest db1
      (r.1, none :: r.2)
    | .error e =>
      let r := run_claims conversation_id now rest db
      (r.1, some e :: r.2)

/-- chat.update_conversation_status: role gate then an unconditional
status write (booking_id is not touched).  The status argument ranges
over the ChatStatus enum values. -/
def update_conversation_status (conversation_id status uid now : String)
    (db : DB) : Except HErr DB :=
  let role := get_user_role uid db
  if role ∉ ["admin", "nurse", "doctor"] then
    .error ⟨403, "Not authorized to update status"⟩
  else
    let convs1 := updateById ConvRec.id conversation_id
      (set_status_update status now) db.conversations
    .ok { db with conversations := convs1 }

/-- chat.MessageCreate payload. -/
structure MessageCreate where
  content : String
  messageType : MessageType
  fileUrl : Option String
  fileName : Option String
deriving DecidableEq, Repr

/-- chat.send_message: access checks, append the message with its full
content, then update the parent conversation (last-message summary of the
first 100 characters, timestamps, unread counter plus one). -/
def send_message (conversation_id : String) (data : MessageCreate)
    (uid msg_id now : String) (db : DB) : Except HErr DB :=
  match db.conversations.find? (fun c => decide (c.id = conversation_id)) with
  | none => .error ⟨404, "Conversation not found"⟩
  | some conv =>
    let role := get_user_role uid db
    if role = "patient" ∧ conv.patientId ≠ uid then
      .error ⟨403, "Not authorized"⟩
    else if role ≠ "patient" ∧ conv.receptionistId ≠ some uid ∧ role ≠ "admin" then
      .error ⟨403, "Not authorized to send messages in this conversation"⟩
    else
      let sender_name := chatDisplayName uid db
      let message : MsgRec :=
        { id := msg_id, conversationId := conversation_id, senderId := uid,
          senderName := sender_name, senderRole := role,
          content := data.content, messageType := data.messageType.val,
          fileUrl := data.fileUrl, fileName := data.fileName,
          readAt := none, createdAt := some now }
      let db1 := { db with chatMessages := db.chatMessages ++ [message] }
      let convs1 := updateById ConvRec.id conversation_id
        (msg_conv_update data.content now) db1.conversations
      .ok { db1 with conversations := convs1 }

/-- Sort rank used by appointments.get_today_queue: 0 for emergencies,
1 for everything else. -/
def queueRank (a : ApptRec) : Nat :=
  if a.bookingType = some "emergency" then 0 else 1

/-- The sort key of get_today_queue as a boolean order: the Python tuple
(0 if emergency else 1, scheduled_at) compared lexicographically. -/
def queueLe (a b : ApptRec) : Bool :=
  decide (queueRank a < queueRank b) ||
    (decide (queueRank a = queueRank b) && strLeB a.scheduledAt b.scheduledAt)

/-- Propositional form of `queueLe`, as needed by the sorting function. -/
abbrev queueRel (a b : ApptRec) : Prop := queueLe a b = true

/-- appointments.get_today_queue: pending appointments of the calling
clinician, restricted to rows scheduled today or of walk-in or emergency
kind, sorted by (emergency-first rank, scheduled time).  The Python
stable ascending sort is modelled by stable insertion sort.  The caller
passes the require_clinician gate (role nurse, doctor or admin); the
listing itself depends only on the caller id. -/
def get_today_queue (uid today : String) (db : DB) : List ApptRec :=
  let pending := db.appointments.filter fun a =>
    decide (a.clinicianId = some uid) && decide (a.status = "pending")
  let todays := pending.filter fun a =>
    strStartsWithB a.scheduledAt today ||
      decide (a.bookingType = some "walk_in") ||
      decide (a.bookingType = some "emergency")
  List.insertionSort queueRel todays

/-- appointments._get_next_queue_position.  The source computes the
current date but the counting loop increments for every selected row, so
the returned value is the count of ALL stored appointments of the given
booking type (any day) plus one. -/
def get_next_queue_position (booking_type : String) (db : DB) : Nat :=
  (db.appointments.filter fun a =>
    decide (a.bookingType = some booking_type)).length + 1

/-- Modelled from the spec wording, for comparison with
get_next_queue_position: the count of same-kind appointments created
today plus one. -/
def spec_next_queue_position (today booking_type : String) (db : DB) : Nat :=
  (db.appointments.filter fun a =>
    decide (a.bookingType = some booking_type) &&
      strStartsWithB (a.createdAt.getD "") today).length + 1

/-- appointments.WalkInBookingCreate payload. -/
structure WalkInBookingCreate where
  clinicianId : Option String
  consultationType : String
  chiefComplaint : String
  symptoms : List String
  severity : String
  notes : Option String
deriving DecidableEq, Repr

/-- appointments.create_walkin_booking: role gate, then insert a pending
walk-in appointment scheduled now with the next queue position. -/
def create_walkin_booking (data : WalkInBookingCreate)
    (uid role appt_id now : String) (db : DB) : Except HErr DB :=
  if role ∉ ["patient", "admin", "nurse"] then
    .error ⟨403, "Invalid role for walk-in booking"⟩
  else
    let appt : ApptRec :=
      { id := appt_id, patientId := uid, clinicianId := data.clinicianId,
        scheduledAt := now, consultationType := data.consultationType,
        durationMinutes := 30, status := "pending",
        bookingType := some "walk_in", priority := some "normal",
        queuePosition := some (get_next_queue_position "walk_in" db),
        chiefComplaint := some data.chiefComplaint, symptoms := data.symptoms,
        severity := some data.severity, notes := data.notes,
        emergencyContactNotified := none, symptomAssessmentId := none,
        clinicId := none, createdAt := some now, cancelledAt := none,
        cancelledBy := none, cancellationReason := none,
        cancellationDetails := none, lateCancellation := none,
        updatedAt := none }
    .ok { db with appointments := db.appointments ++ [appt] }

/-- appointments.EmergencyBookingCreate payload. -/
structure EmergencyBookingCreate where
  chiefComplaint : String
  symptoms : List String
  severity : String
  notes : Option String
  emergencyContactNotified : Bool
deriving DecidableEq, Repr

/-- appointments.create_emergency_booking: role gate, then insert a
pending emergency appointment with queue position 0, priority emergency,
video consultation, no assigned clinician. -/
def create_emergency_booking (data : EmergencyBookingCreate)
    (uid role appt_id now : String) (db : DB) : Except HErr DB :=
  if role ∉ ["patient", "admin", "nurse", "doctor"] then
    .error ⟨403, "Invalid role for emergency booking"⟩
  else
    let appt : ApptRec :=
      { id := appt_id, patientId := uid, clinicianId := none,
        scheduledAt := now, consultationType := "video",
        durationMinutes := 30, status := "pending",
        bookingType := some "emergency", priority := some "emergency",
        queuePosition := some 0,
        chiefComplaint := some data.chiefComplaint, symptoms := data.symptoms,
        severity := some "severe", notes := data.notes,
        emergencyContactNotified := some data.emergencyContactNotified,
        symptomAssessmentId := none, clinicId := none, createdAt := some now,
        cancelledAt := none, cancelledBy := none, cancellationReason := none,
        cancellationDetails := none, lateCancellation := none,
        updatedAt := none }
    .ok { db with appointments := db.appointments ++ [appt] }

/-- appointments.cancel_appointment_with_reason: 404 on missing row,
reject already cancelled or completed rows with status 400 leaving the
store unchanged, check permission, then record the cancellation
metadata.  The caller role comes from the authenticated user; the
clock-dependent late-cancellation test (under two hours before the
scheduled time) is abstracted as the `late_of` parameter. -/
def cancel_appointment_with_reason (appointment_id : String)
    (reason : CancellationReason) (reason_details : Option String)
    (uid role now : String) (late_of : String → Bool) (db : DB) :
    Except HErr DB :=
  match db.appointments.find? (fun a => decide (a.id = appointment_id)) with
  | none => .error ⟨404, "Appointment not found"⟩
  | some apt =>
    if apt.status = "cancelled" ∨ apt.status = "completed" then
      .error ⟨400, "Appointment already " ++ apt.status⟩
    else if ¬ (role = "admin" ∨ apt.patientId = uid ∨ apt.clinicianId = some uid) then
      .error ⟨403, "You do not have permission to cancel this appointment"⟩
    else
      let late := late_of apt.scheduledAt
      let appts1 := updateById ApptRec.id appointment_id (fun a =>
        { a with status := "cancelled", cancelledAt := some now,
                 cancelledBy := some uid,
                 cancellationReason := some reason.val,
                 cancellationDetails := reason_details,
                 lateCancellation := some late,
                 updatedAt := some now }) db.appointments
      .ok { db with appointments := appts1 }

/-- bookings.BookingCreate payload (scheduled_at kept as its ISO
string). -/
structure BookingCreate where
  patientId : String
  clinicianId : String
  conversationId : Option String
  scheduledAt : String
  serviceType : ServiceType
  billingType : PatientBillingType
  notes : Option String
  durationMinutes : Nat
deriving DecidableEq, Repr

/-- bookings.create_invoice: append a pending invoice whose amount is the
fee-table price passed in service_details. -/
def create_invoice (booking_id patient_id clinician_id : String)
    (service_type : ServiceType) (service_details : FeeItem)
    (consultation_date invoice_id : String) (db : DB) : DB :=
  let inv : InvoiceRec :=
    { id := invoice_id, bookingId := booking_id, patientId := patient_id,
      serviceType := service_type.val, serviceName := service_details.name,
      serviceDescription := service_details.description,
      amount := service_details.price,
      consultationDate := consultation_date, clinicianId := clinician_id,
      status := "pending",
      clinicId := "00000000-0000-0000-0000-000000000001",
      paymentReference := none, paidAt := none }
  { db with invoices := db.invoices ++ [inv] }

/-- bookings.create_booking: role gate (admin, nurse, doctor or
receptionist), reference checks for patient and clinician, clinician
role check, then in order: insert the appointment (video consultation,
status confirmed, no booking type recorded), insert the confirmed
booking, link and message the conversation when one is given, and for
cash billing with a positive fee-table price create the invoice and
write its id back onto the booking.  The display formatting that the
source applies to the scheduled time inside the system message is kept
as the raw timestamp string. -/
def create_booking (caller : String) (data : BookingCreate)
    (appt_id booking_id invoice_id msg_id : String) (db : DB) :
    Except HErr DB :=
  let role := get_user_role caller db
  if role ∉ ["admin", "nurse", "doctor", "receptionist"] then
    .error ⟨403, "Not authorized to create bookings"⟩
  else
    match get_user_profile data.patientId db with
    | none => .error ⟨404, "Patient not found"⟩
    | some _ =>
      match get_user_profile data.clinicianId db with
      | none => .error ⟨404, "Clinician not found"⟩
      | some clinician_profile =>
        let clinician_role := get_user_role data.clinicianId db
        if clinician_role ∉ ["nurse", "doctor"] then
          .error ⟨400, "Selected user is not a clinician"⟩
        else
          let clinician_name := format_name (some clinician_profile)
          let service_details := FEE_SCHEDULE data.serviceType
          let appt : ApptRec :=
            { id := appt_id, patientId := data.patientId,
              clinicianId := some data.clinicianId,
              scheduledAt := data.scheduledAt, consultationType := "video",
              durationMinutes := data.durationMinutes, status := "confirmed",
              bookingType := none, priority := none, queuePosition := none,
              chiefComplaint := none, symptoms := [], severity := none,
              notes := data.notes, emergencyContactNotified := none,
              symptomAssessmentId := none,
              clinicId := some "00000000-0000-0000-0000-000000000001",
              createdAt := none, cancelledAt := none, cancelledBy := none,
              cancellationReason := none, cancellationDetails := none,
              lateCancellation := none, updatedAt := none }
          let db1 := { db with appointments := db.appointments ++ [appt] }
          let booking : BookingRec :=
            { id := booking_id, patientId := data.patientId,
              clinicianId := data.clinicianId,
              conversationId := data.conversationId,
              appointmentId := some appt_id,
              scheduledAt := data.scheduledAt,
              durationMinutes := data.durationMinutes,
              serviceType := data.serviceType.val,
              billingType := data.billingType.val, status := "confirmed",
              notes := data.notes, createdBy := caller, invoiceId := none,
              clinicId := "00000000-0000-0000-0000-000000000001" }
          let db2 := { db1 with bookings := db1.bookings ++ [booking] }
          let db3 :=
            match data.conversationId with
            | some cid =>
              let convs1 := updateById ConvRec.id cid
                (link_booking_update booking_id) db2.conversations
              let dbA := { db2 with conversations := convs1 }
              let confirm_msg : MsgRec :=
                { id := msg_id, conversationId := cid, senderId := caller,
                  senderName := "System", senderRole := "system",
                  content := "✅ Booking confirmed with " ++ clinician_name ++
                    " on " ++ data.scheduledAt,
                  messageType := "system", fileUrl := none, fileName := none,
                  readAt := none, createdAt := none }
              { dbA with chatMessages := dbA.chatMessages ++ [confirm_msg] }
            | none => db2
          if data.billingType = PatientBillingType.cash ∧
              0 < service_details.price then
            let db4 := create_invoice booking_id data.patientId
              data.clinicianId data.serviceType service_details
              data.scheduledAt invoice_id db3
            let bookings1 := updateById BookingRec.id booking_id
              (fun b => { b with invoiceId := some invoice_id }) db4.bookings
            .ok { db4 with bookings := bookings1 }
          else .ok db3

/-- bookings.cancel_booking: 404 on missing row, patient ownership check,
then cancel the booking and cascade: linked appointment cancelled,
linked invoice cancelled, linked conversation back to active with
booking_id cleared plus a system message.  There is no check of the
current booking status. -/
def cancel_booking (booking_id caller msg_id : String) (db : DB) :
    Except HErr DB :=
  let role := get_user_role caller db
  match db.bookings.find? (fun b => decide (b.id = booking_id)) with
  | none => .error ⟨404, "Booking not found"⟩
  | some booking =>
    if role = "patient" ∧ booking.patientId ≠ caller then
      .error ⟨403, "Not authorized"⟩
    else
      let bookings1 := updateById BookingRec.id booking_id
        (fun b => { b with status := "cancelled" }) db.bookings
      let db1 := { db with bookings := bookings1 }
      let db2 :=
        match booking.appointmentId with
        | some aid =>
          let appts1 := updateById ApptRec.id aid
            (fun a => { a with status := "cancelled" }) db1.appointments
          { db1 with appointments := appts1 }
        | none => db1
      let db3 :=
        match booking.invoiceId with
        | some iid =>
          let invs1 := updateById InvoiceRec.id iid
            (fun i => { i with status := "cancelled" }) db2.invoices
          { db2 with invoices := invs1 }
        | none => db2
      match booking.conversationId with
      | some cid =>
        let convs1 := updateById ConvRec.id cid cancel_booking_conv_update
          db3.conversations
        let db4 := { db3 with conversations := convs1 }
        let cancel_msg : MsgRec :=
          { id := msg_id, conversationId := cid, senderId := caller,
            senderName := "System", senderRole := "system",
            content := "❌ Booking has been cancelled",
            messageType := "system", fileUrl := none, fileName := none,
            readAt := none, createdAt := none }
        .ok { db4 with chatMessages := db4.chatMessages ++ [cancel_msg] }
      | none => .ok db3

/-- patient_models.NurseTriageCreate payload. -/
structure NurseTriageCreate where
  appointmentId : String
  patientId : String
  vitalSigns : VitalSigns
  chiefComplaint : String
  symptomDuration : Option String
  symptomOnset : Option String
  aiUrgency : Option String
  aiUrgencyScore : Option Int
  aiCarePathway : Option String
  aiAssessmentSummary : Option String
  triagePriority : TriagePriority
  nurseNotes : String
  allergiesConfirmed : Bool
  medicationsConfirmed : Bool
  identityVerified : Bool
  consentObtained : Bool
  medicalAidVerified : Bool
  patientEducationProvided : Bool
  recommendedAction : String
  referralReason : Option String
  doctorNotes : Option String
deriving DecidableEq, Repr

/-- nurse_triage.create_triage_assessment: role gate (require_clinician
and the inline check are the same role set), 404 on missing appointment,
400 Conflict when a triage row for the appointment already exists,
otherwise insert the triage record (BMI computed server-side when weight
and height are truthy, readiness derived from the recommended action)
and, when the recommendation is proceed_to_doctor, confirm the
appointment. -/
def create_triage_assessment (data : NurseTriageCreate)
    (uid role triage_id now : String) (db : DB) : Except HErr DB :=
  if role ∉ ["nurse", "doctor", "admin"] then
    .error ⟨403, "Only nurses can perform triage"⟩
  else
    match db.appointments.find? (fun a => decide (a.id = data.appointmentId)) with
    | none => .error ⟨404, "Appointment not found"⟩
    | some _ =>
      if (db.triages.filter fun t =>
          decide (t.appointmentId = data.appointmentId)) ≠ [] then
        .error ⟨400, "Appointment already triaged. Use PATCH to update."⟩
      else
        let vital_signs :=
          if truthyQ data.vitalSigns.weight ∧ truthyQ data.vitalSigns.height then
            { data.vitalSigns with bmi := calculate_bmi data.vitalSigns }
          else data.vitalSigns
        let triage_record : TriageRec :=
          { id := triage_id, appointmentId := data.appointmentId,
            patientId := data.patientId, nurseId := uid,
            vitalSigns := vital_signs,
            chiefComplaint := data.chiefComplaint,
            symptomDuration := data.symptomDuration,
            symptomOnset := data.symptomOnset, aiUrgency := data.aiUrgency,
            aiUrgencyScore := data.aiUrgencyScore,
            aiCarePathway := data.aiCarePathway,
            aiAssessmentSummary := data.aiAssessmentSummary,
            triagePriority := data.triagePriority.val,
            nurseNotes := data.nurseNotes,
            allergiesConfirmed := data.allergiesConfirmed,
            medicationsConfirmed := data.medicationsConfirmed,
            identityVerified := data.identityVerified,
            consentObtained := data.consentObtained,
            medicalAidVerified := data.medicalAidVerified,
            patientEducationProvided := data.patientEducationProvided,
            recommendedAction := data.recommendedAction,
            referralReason := data.referralReason,
            doctorNotes := data.doctorNotes,
            readyForDoctor := decide (data.recommendedAction = "proceed_to_doctor"),
            createdAt := now }
        let db1 := { db with triages := db.triages ++ [triage_record] }
        if data.recommendedAction = "proceed_to_doctor" then
          let appts1 := updateById ApptRec.id data.appointmentId (fun a =>
            { a with status := "confirmed", updatedAt := some now })
            db1.appointments
          .ok { db1 with appointments := appts1 }
        else .ok db1

/-- Number of triage rows stored for an appointment. -/
def triageCount (appointment_id : String) (db : DB) : Nat :=
  (db.triages.filter fun t => decide (t.appointmentId = appointment_id)).length

/-- Conversation states reachable through the exposed conversation
operations: creation, claim (with its no-receptionist guard), the status
update route (any ChatStatus value), booking link during create_booking,
and the cancel propagation of cancel_booking.  Each step applies exactly
the field update the corresponding route writes. -/
inductive ConvReachable : ConvRec → Prop
  | created (cid pid pname msg now : String) :
      ConvReachable (new_conversation cid pid pname msg now)
  | claimed {c : ConvRec} (uid name now : String) : ConvReachable c →
      c.receptionistId = none → ConvReachable (claim_conv_update uid name now c)
  | status_set {c : ConvRec} (st now : String) : ConvReachable c →
      st ∈ chatStatuses → ConvReachable (set_status_update st now c)
  | linked {c : ConvRec} (bid : String) : ConvReachable c →
      ConvReachable (link_booking_update bid c)
  | cancel_prop {c : ConvRec} : ConvReachable c →
      ConvReachable (cancel_booking_conv_update c)

/-- Conversation states reachable without the status-only operations:
creation, booking link, cancel propagation. -/
inductive ConvReachableCore : ConvRec → Prop
  | created (cid pid pname msg now : String) :
      ConvReachableCore (new_conversation cid pid pname msg now)
  | linked {c : ConvRec} (bid : String) : ConvReachableCore c →
      ConvReachableCore (link_booking_update bid c)
  | cancel_prop {c : ConvRec} : ConvReachableCore c →
      ConvReachableCore (cancel_booking_conv_update c)

/-- Boolean success test for an operation result. -/
def exceptOk : Except HErr DB → Bool
  | .ok _ => true
  | .error _ => false

/-- Error extracted from an operation result, if any. -/
def exceptErr : Except HErr DB → Option HErr
  | .ok _ => none
  | .error e => some e

/-- The appointment row a finished operation stored under the given id,
when the operation succeeded. -/
def created_appt (r : Except HErr DB) (aid : String) : Option ApptRec :=
  match r with
  | .ok db => db.appointments.find? fun a => decide (a.id = aid)
  | .error _ => none

/-- Ordering predicate used to state the queue claim: every appointment
of the first booking kind comes before every appointment of the second
kind (no pair in the wrong order). -/
abbrev allOfKindBefore (k1 k2 : String) (l : List ApptRec) : Prop :=
  l.Pairwise fun a b => ¬ (a.bookingType = some k2 ∧ b.bookingType = some k1)

/-- Empty record store. -/
def emptyDB : DB :=
  { profiles := [], roles := [], appointments := [], bookings := [],
    invoices := [], conversations := [], chatMessages := [], triages := [] }

/-- Appointment-row template for concrete test states. -/
def baseAppt : ApptRec :=
  { id := "", patientId := "p", clinicianId := none, scheduledAt := "",
    consultationType := "video", durationMinutes := 30, status := "pending",
    bookingType := none, priority := none, queuePosition := none,
    chiefComplaint := none, symptoms := [], severity := none, notes := none,
    emergencyContactNotified := none, symptomAssessmentId := none,
    clinicId := none, createdAt := none, cancelledAt := none,
    cancelledBy := none, cancellationReason := none,
    cancellationDetails := none, lateCancellation := none, updatedAt := none }

/-- Conversation-row template for concrete test states. -/
def baseConv : ConvRec :=
  { id := "", patientId := "", patientName := "", receptionistId := none,
    receptionistName := none, status := "new", patientType := none,
    bookingId := none, lastMessage := none, lastMessageAt := none,
    unreadCount := 0, createdAt := "", updatedAt := "" }

/-- Booking-row template for concrete test states. -/
def baseBooking : BookingRec :=
  { id := "", patientId := "", clinicianId := "", conversationId := none,
    appointmentId := none, scheduledAt := "", durationMinutes := 30,
    serviceType := "teleconsultation", billingType := "cash",
    status := "confirmed", notes := none, createdBy := "",
    invoiceId := none, clinicId := "00000000-0000-0000-0000-000000000001" }

/-- Invoice-row template for concrete test states. -/
def baseInvoice : InvoiceRec :=
  { id := "", bookingId := "", patientId := "",
    serviceType := "teleconsultation",
    serviceName := "Tele-consultation (excl. medication)",
    serviceDescription := "", amount := 260, consultationDate := "",
    clinicianId := "", status := "pending",
    clinicId := "00000000-0000-0000-0000-000000000001",
    paymentReference := none, paidAt := none }

/-- Vital-signs template (everything absent). -/
def baseVitals : VitalSigns :=
  { bloodPressureSystolic := none, bloodPressureDiastolic := none,
    heartRate := none, respiratoryRate := none, temperature := none,
    oxygenSaturation := none, weight := none, height := none, bmi := none,
    bloodGlucose := none, painScore := none }

/-- Triage-row template for concrete test states. -/
def baseTriage : TriageRec :=
  { id := "", appointmentId := "", patientId := "", nurseId := "",
    vitalSigns := baseVitals, chiefComplaint := "", symptomDuration := none,
    symptomOnset := none, aiUrgency := none, aiUrgencyScore := none,
    aiCarePathway := none, aiAssessmentSummary := none,
    triagePriority := "green", nurseNotes := "",
    allergiesConfirmed := false, medicationsConfirmed := false,
    identityVerified := false, consentObtained := false,
    medicalAidVerified := false, patientEducationProvided := false,
    recommendedAction := "follow_up", referralReason := none,
    doctorNotes := none, readyForDoctor := false, createdAt := "" }

/-- Queue state for the ordering counterexample: pending appointments of
one clinician, one of each booking kind.  The walk-in was created at
10:00 (its scheduled time is its arrival time) and the scheduled booking
is for 08:00 the same day. -/
def c1_db : DB :=
  let w1 : ApptRec :=
    { baseAppt with
      id := "w1", clinicianId := some "doc1",
      scheduledAt := "2026-10-12T10:00:00", bookingType := some "walk_in" }
  let s1 : ApptRec :=
    { baseAppt with
      id := "s1", clinicianId := some "doc1",
      scheduledAt := "2026-10-12T08:00:00", bookingType := some "scheduled" }
  let e1 : ApptRec :=
    { baseAppt with
      id := "e1", clinicianId := some "doc1",
      scheduledAt := "2026-10-12T07:00:00", bookingType := some "emergency" }
  { emptyDB with appointments := [w1, s1, e1] }

/-- State for the booking-creation scenario: a receptionist caller, a
patient and a nurse clinician with profiles, and an active claimed
conversation. -/
def c2_cv : ConvRec :=
  { baseConv with
    id := "conv1", patientId := "pat1", patientName := "Ada Smith",
    status := "active", receptionistId := some "rec1" }

/-- Record store for the booking-creation scenario. -/
def c2_db : DB :=
  { emptyDB with
    profiles := [⟨"pat1", "Ada", "Smith"⟩, ⟨"cli1", "Eve", "Jones"⟩],
    roles := [("rec1", "receptionist"), ("cli1", "nurse")],
    conversations := [c2_cv] }

/-- Teleconsultation cash booking request linked to the conversation. -/
def c2_data : BookingCreate :=
  { patientId := "pat1", clinicianId := "cli1",
    conversationId := some "conv1", scheduledAt := "2026-10-20T09:00:00",
    serviceType := .teleconsultation, billingType := .cash, notes := none,
    durationMinutes := 30 }

/-- Concrete booking-creation run for the C2 scenario. -/
def c2_run : Except HErr DB :=
  create_booking "rec1" c2_data "appt1" "bk1" "inv1" "msg1" c2_db

/-- State with a fully linked confirmed booking for the cancellation
scenario, cancelled by an admin. -/
def c3_bk : BookingRec :=
  { baseBooking with
    id := "bk1", patientId := "pat1", clinicianId := "cli1",
    conversationId := some "conv1", appointmentId := some "appt1",
    invoiceId := some "inv1" }

/-- Record store with the fully linked confirmed booking. -/
def c3_db : DB :=
  let ap : ApptRec :=
    { baseAppt with
      id := "appt1", patientId := "pat1",
      clinicianId := some "cli1", status := "confirmed" }
  let inv : InvoiceRec :=
    { baseInvoice with
      id := "inv1",
      bookingId := "bk1", patientId := "pat1" }
  let cv : ConvRec :=
    { baseConv with
      id := "conv1", patientId := "pat1",
      status := "booked", bookingId := some "bk1" }
  { emptyDB with
    roles := [("adm1", "admin")], bookings := [c3_bk],
    appointments := [ap], invoices := [inv], conversations := [cv] }

/-- State with an already-cancelled booking (with links) for the
idempotence counterexample. -/
def c4_db : DB :=
  let bk : BookingRec :=
    { baseBooking with
      id := "bkC", patientId := "pat1",
      clinicianId := "cli1", status := "cancelled" }
  { emptyDB with roles := [("adm1", "admin")], bookings := [bk] }

/-- Cancellation of the already-cancelled booking. -/
def c4_run : Except HErr DB := cancel_booking "bkC" "adm1" "mm1" c4_db

/-- State with a completed appointment for the appointment-guard
witness. -/
def c4w_ap : ApptRec :=
  { baseAppt with
    id := "apX", patientId := "pat1", status := "completed",
    scheduledAt := "2026-10-12T08:00:00" }

/-- Record store holding only the completed appointment. -/
def c4w_db : DB :=
  { emptyDB with appointments := [c4w_ap] }

/-- State with an appointment that already has a triage record. -/
def c5_db : DB :=
  let ap : ApptRec :=
    { baseAppt with id := "apt1", patientId := "pat1" }
  let tr : TriageRec :=
    { baseTriage with
      id := "tr1",
      appointmentId := "apt1", patientId := "pat1", nurseId := "nurseA" }
  { emptyDB with appointments := [ap], triages := [tr] }

/-- Second triage submission for the already-triaged appointment. -/
def c5_data : NurseTriageCreate :=
  { appointmentId := "apt1", patientId := "pat1", vitalSigns := baseVitals,
    chiefComplaint := "headache", symptomDuration := none,
    symptomOnset := none, aiUrgency := none, aiUrgencyScore := none,
    aiCarePathway := none, aiAssessmentSummary := none,
    triagePriority := .green, nurseNotes := "second assessment",
    allergiesConfirmed := false, medicationsConfirmed := false,
    identityVerified := false, consentObtained := false,
    medicalAidVerified := false, patientEducationProvided := false,
    recommendedAction := "proceed_to_doctor", referralReason := none,
    doctorNotes := none }

/-- State with one unassigned conversation and two authorized claimers. -/
def c6_cv : ConvRec :=
  { baseConv with
    id := "cv1", patientId := "patQ", patientName := "Quinn Poe",
    status := "new" }

/-- Record store with the unassigned conversation and two authorized
claimers. -/
def c6_db : DB :=
  { emptyDB with
    roles := [("n1", "nurse"), ("n2", "doctor")],
    conversations := [c6_cv] }

/-- Yesterday-only walk-in state for the queue-position evaluation: one
stored walk-in appointment created on 2026-10-11. -/
def c7_db : DB :=
  let w0 : ApptRec :=
    { baseAppt with
      id := "w0",
      bookingType := some "walk_in", createdAt := some "2026-10-11T09:00:00",
      scheduledAt := "2026-10-11T09:00:00" }
  { emptyDB with appointments := [w0] }

/-- Emergency booking run used to evaluate the emergency half of the
queue-position claim. -/
def c7_em_run : Except HErr DB :=
  create_emergency_booking
    { chiefComplaint := "chest pain", symptoms := [], severity := "severe",
      notes := none, emergencyContactNotified := false }
    "patE" "patient" "apE" "2026-10-12T11:00:00" c7_db

/-- Conversation state reached by creating a conversation, linking a
booking to it, then setting the status to active through the status
route: booking_id stays set while the status leaves booked. -/
def c8_bad : ConvRec :=
  set_status_update "active" "t2"
    (link_booking_update "b1" (new_conversation "c1" "p1" "Pat" "hello" "t0"))

/-- State whose caller has the patient role, for the booking role gate. -/
def c9_db : DB :=
  { emptyDB with
    profiles := [⟨"pat9", "Ida", "Low"⟩, ⟨"cli9", "Joy", "Day"⟩],
    roles := [("pat9", "patient"), ("cli9", "doctor")] }

/-- Booking request a patient attempts to create for themselves. -/
def c9_data : BookingCreate :=
  { patientId := "pat9", clinicianId := "cli9", conversationId := none,
    scheduledAt := "2026-10-21T10:00:00", serviceType := .teleconsultation,
    billingType := .cash, notes := none, durationMinutes := 30 }

/-- Patient-role booking attempt. -/
def c9_run : Except HErr DB :=
  create_booking "pat9" c9_data "appt9" "bk9" "inv9" "msg9" c9_db

/-- State with a claimed conversation for the send-message witness; the
sender is the patient of the conversation. -/
def c10_cv : ConvRec :=
  { baseConv with
    id := "cv10", patientId := "pat10", patientName := "Sam Hill",
    status := "active", receptionistId := some "recX", unreadCount := 3,
    patientType := some "cash", bookingId := none }

/-- Record store holding the claimed conversation. -/
def c10_db : DB :=
  { emptyDB with conversations := [c10_cv] }

/-- Message payload for the send-message witness. -/
def c10_data : MessageCreate :=
  { content := "I have a question about my booking", messageType := .text,
    fileUrl := none, fileName := none }

theorem lexLe_total (a b : List Char) : (lexLe a b || lexLe b a) = true := by
  induction a generalizing b with
  | nil => simp [lexLe]
  | cons c cs ih =>
    cases b with
    | nil => simp [lexLe]
    | cons d ds =>
      simp only [lexLe, Bool.or_eq_true, Bool.and_eq_true, decide_eq_true_eq]
      rcases Nat.lt_trichotomy c.toNat d.toNat with h | h | h
      · exact Or.inl (Or.inl h)
      · have := ih ds
        simp only [Bool.or_eq_true] at this
        rcases this with h1 | h1
        · exact Or.inl (Or.inr ⟨h, h1⟩)
        · exact Or.inr (Or.inr ⟨h.symm, h1⟩)
      · exact Or.inr (Or.inl h)

theorem lexLe_trans (a b c : List Char) (hab : lexLe a b = true)
    (hbc : lexLe b c = true) : lexLe a c = true := by
  induction a generalizing b c with
  | nil => simp [lexLe]
  | cons x xs ih =>
    cases b with
    | nil => simp [lexLe] at hab
    | cons y ys =>
      cases c with
      | nil => simp [lexLe] at hbc
      | cons z zs =>
        simp only [lexLe, Bool.or_eq_true, Bool.and_eq_true,
          decide_eq_true_eq] at hab hbc ⊢
        rcases hab with h1 | ⟨h1, h1l⟩ <;> rcases hbc with h2 | ⟨h2, h2l⟩
        · exact Or.inl (Nat.lt_trans h1 h2)
        · exact Or.inl (h2 ▸ h1)
        · exact Or.inl (h1 ▸ h2)
        · exact Or.inr ⟨h1.trans h2, ih ys zs h1l h2l⟩

theorem queueLe_total (a b : ApptRec) : (queueLe a b || queueLe b a) = true := by
  simp only [queueLe, Bool.or_eq_true, Bool.and_eq_true, decide_eq_true_eq]
  rcases Nat.lt_trichotomy (queueRank a) (queueRank b) with h | h | h
  · exact Or.inl (Or.inl h)
  · have := lexLe_total a.scheduledAt.data b.scheduledAt.data
    simp only [Bool.or_eq_true] at this
    rcases this with h1 | h1
    · exact Or.inl (Or.inr ⟨h, h1⟩)
    · exact Or.inr (Or.inr ⟨h.symm, h1⟩)
  · exact Or.inr (Or.inl h)

theorem queueLe_trans (a b c : ApptRec) (hab : queueLe a b = true)
    (hbc : queueLe b c = true) : queueLe a c = true := by
  simp only [queueLe, strLeB, Bool.or_eq_true, Bool.and_eq_true,
    decide_eq_true_eq] at hab hbc ⊢
  rcases hab with h1 | ⟨h1, h1l⟩ <;> rcases hbc with h2 | ⟨h2, h2l⟩
  · exact Or.inl (Nat.lt_trans h1 h2)
  · exact Or.inl (h2 ▸ h1)
  · exact Or.inl (h1 ▸ h2)
  · exact Or.inr ⟨h1.trans h2, lexLe_trans _ _ _ h1l h2l⟩

theorem find?_updateById {α : Type} (getId : α → String) (i : String)
    (g : α → α) (l : List α) (hg : ∀ r, getId (g r) = getId r) :
    (updateById getId i g l).find? (fun r => decide (getId r = i)) =
      (l.find? fun r => decide (getId r = i)).map g := by
  induction l with
  | nil => rfl
  | cons a t ih =>
    by_cases h : getId a = i
    · simp [updateById, List.find?, h, hg]
    · simp only [updateById, List.map_cons, List.find?] at ih ⊢
      simp [h, hg, ih, updateById]

theorem updateById_mem_prop {α : Type} {P : α → Prop} (getId : α → String)
    (i : String) (g : α → α) (l : List α)
    (h1 : ∀ r, getId r = i → P (g r)) :
    ∀ x ∈ updateById getId i g l, getId x = i → P x := by
  intro x hx hid
  simp only [updateById, List.mem_map] at hx
  obtain ⟨y, hy, rfl⟩ := hx
  by_cases h : getId y = i
  · rw [if_pos h]
    exact h1 y h
  · rw [if_neg h] at hid
    exact absurd hid h
/-- Claim C1 (amended): the queue listing is sorted by the key
(emergency-first rank, scheduled time); consequently every emergency
appointment is returned before every walk-in and before every scheduled
appointment.  Walk-ins and scheduled items are ordered among themselves
by scheduled time, not by kind. -/
theorem c1_amended_queue_order (uid today : String) (db : DB) :
    (get_today_queue uid today db).Pairwise queueRel ∧
    allOfKindBefore "emergency" "walk_in" (get_today_queue uid today db) ∧
    allOfKindBefore "emergency" "scheduled" (get_today_queue uid today db) := by
  have hsorted : (get_today_queue uid today db).Pairwise queueRel := by
    unfold get_today_queue
    haveI : IsTotal ApptRec queueRel := ⟨fun a b => by
      have h := queueLe_total a b
      simp only [Bool.or_eq_true] at h
      exact h⟩
    haveI : IsTrans ApptRec queueRel := ⟨fun a b c => queueLe_trans a b c⟩
    exact List.sorted_insertionSort queueRel _
  refine ⟨hsorted, ?_, ?_⟩
  · refine hsorted.imp ?_
    intro a b hab hcon
    obtain ⟨ha, hb⟩ := hcon
    simp [queueRel, queueLe, queueRank, ha, hb] at hab
  · refine hsorted.imp ?_
    intro a b hab hcon
    obtain ⟨ha, hb⟩ := hcon
    simp [queueRel, queueLe, queueRank, ha, hb] at hab

/-- Claim C1 counterexample: a pending collection for one clinician with
one emergency, one walk-in and one scheduled booking on which the queue
listing places the scheduled booking (08:00) before the walk-in (10:00),
so walk-ins do not all precede scheduled items. -/
theorem c1_counterexample :
    (∃ a ∈ c1_db.appointments, a.bookingType = some "emergency" ∧
       a.clinicianId = some "doc1" ∧ a.status = "pending") ∧
    (∃ a ∈ c1_db.appointments, a.bookingType = some "walk_in" ∧
       a.clinicianId = some "doc1" ∧ a.status = "pending") ∧
    (∃ a ∈ c1_db.appointments, a.bookingType = some "scheduled" ∧
       a.clinicianId = some "doc1" ∧ a.status = "pending") ∧
    ¬ allOfKindBefore "walk_in" "scheduled"
        (get_today_queue "doc1" "2026-10-12" c1_db) := by decide

/-- Claim C2 counterexample: the concrete teleconsultation cash booking
succeeds, but the appointment it creates carries no booking kind at all
(the insert sets no booking_type), not the kind scheduled. -/
theorem c2_counterexample :
    exceptOk c2_run = true ∧
    (created_appt c2_run "appt1").map ApptRec.bookingType = some none := by
  decide

/-- Claim C4 counterexample: cancelling a booking that is already
cancelled succeeds (cancel_booking has no status guard), instead of
failing with an invalid-state error. -/
theorem c4_counterexample :
    (∃ b ∈ c4_db.bookings, b.id = "bkC" ∧ b.status = "cancelled") ∧
    exceptOk c4_run = true := by decide

/-- Claim C7 evaluation at the failing input: with one walk-in stored
from the previous day, the code assigns the next walk-in queue position
2 while the same-day count of the docstring gives 1; emergency bookings
do get queue position 0 and priority emergency. -/
theorem c7_code_eval :
    get_next_queue_position "walk_in" c7_db = 2 ∧
    spec_next_queue_position "2026-10-12" "walk_in" c7_db = 1 ∧
    (created_appt c7_em_run "apE").map ApptRec.queuePosition = some (some 0) ∧
    (created_appt c7_em_run "apE").map ApptRec.priority =
      some (some "emergency") := by decide

/-- Claim C8 counterexample: create a conversation, link a booking
(status booked, booking_id set), then move the status to active through
the status-update operation; the reachable result has a non-null
booking_id with a status other than booked. -/
theorem c8_counterexample :
    ConvReachable c8_bad ∧ c8_bad.bookingId ≠ none ∧
      c8_bad.status ≠ "booked" := by
  refine ⟨?_, by decide, by decide⟩
  unfold c8_bad
  exact ConvReachable.status_set "active" "t2"
    (ConvReachable.linked "b1"
      (ConvReachable.created "c1" "p1" "Pat" "hello" "t0")) (by decide)

/-- Claim C9 counterexample: a caller whose role is patient is rejected
by create_booking with a 403 error, although the claim says the patient
role is permitted. -/
theorem c9_counterexample :
    get_user_role "pat9" c9_db = "patient" ∧
    exceptErr c9_run = some ⟨403, "Not authorized to create bookings"⟩ := by
  decide
/-- Claim C4 (amended): cancelling an appointment whose status is already
cancelled or completed fails with a 400 invalid-state error and, the
operation returning before any write, leaves every record unchanged;
bookings have no such guard (see the counterexample). -/
theorem c4_amended_cancel_guard (appointment_id : String)
    (reason : CancellationReason) (reason_details : Option String)
    (uid role now : String) (late_of : String → Bool) (db : DB)
    (apt : ApptRec)
    (hfind : db.appointments.find?
      (fun a => decide (a.id = appointment_id)) = some apt)
    (hstatus : apt.status = "cancelled" ∨ apt.status = "completed") :
    cancel_appointment_with_reason appointment_id reason reason_details uid
      role now late_of db =
      .error ⟨400, "Appointment already " ++ apt.status⟩ := by
  unfold cancel_appointment_with_reason
  simp only [hfind]
  rw [if_pos hstatus]

/-- Claim C4 witness: the guard fires on a concrete completed
appointment. -/
theorem c4_witness :
    cancel_appointment_with_reason "apX" CancellationReason.patient_request
      none "adm1" "admin" "2026-10-12T06:00:00" (fun _ => false) c4w_db =
      .error ⟨400, "Appointment already completed"⟩ := by
  have h := c4_amended_cancel_guard "apX" CancellationReason.patient_request
    none "adm1" "admin" "2026-10-12T06:00:00" (fun _ => false) c4w_db
    c4w_ap (by decide) (Or.inr (by decide))
  rw [h]
  rfl

/-- Claim C9 (amended): create_booking rejects, before any record is
created, every caller whose role is not admin, nurse, doctor or
receptionist; in particular callers with the patient role are
rejected. -/
theorem c9_amended_role_gate (caller : String) (data : BookingCreate)
    (appt_id booking_id invoice_id msg_id : String) (db : DB)
    (hrole : get_user_role caller db ∉
      (["admin", "nurse", "doctor", "receptionist"] : List String)) :
    create_booking caller data appt_id booking_id invoice_id msg_id db =
      .error ⟨403, "Not authorized to create bookings"⟩ := by
  unfold create_booking
  rw [if_pos hrole]

/-- Claim C9 witness: a caller unknown to the role table defaults to the
patient role and is rejected by the gate. -/
theorem c9_witness :
    create_booking "ghost" c9_data "apW" "bkW" "invW" "msgW" c9_db =
      .error ⟨403, "Not authorized to create bookings"⟩ :=
  c9_amended_role_gate "ghost" c9_data "apW" "bkW" "invW" "msgW" c9_db
    (by decide)

/-- Claim C8 (amended): in every conversation state reachable through
creation, booking-linking during create_booking, and cancel propagation
during cancel_booking, booking_id is non-null only when the status is
booked; the status-only operations (the status-update route, and claim)
write the status without adjusting booking_id and do not preserve the
invariant (see the counterexample). -/
theorem c8_amended_core_invariant (c : ConvRec) (h : ConvReachableCore c) :
    c.bookingId ≠ none → c.status = "booked" := by
  induction h with
  | created cid pid pname msg now =>
    intro hb
    simp [new_conversation] at hb
  | linked bid h ih =>
    intro _
    simp [link_booking_update]
  | cancel_prop h ih =>
    intro hb
    simp [cancel_booking_conv_update] at hb

/-- Claim C8 witness: the invariant evaluated on a concrete reachable
linked state. -/
theorem c8_witness :
    (link_booking_update "b1"
      (new_conversation "c1" "p1" "Pat" "hello" "t0")).status = "booked" :=
  c8_amended_core_invariant _
    (ConvReachableCore.linked "b1"
      (ConvReachableCore.created "c1" "p1" "Pat" "hello" "t0")) (by decide)
/-- Claim C5: at most one triage record per appointment.  Under the role
gate and an existing appointment: a createTriage call for an appointment
that already has a triage record fails with the 400 Conflict error (and,
the operation returning before any write, inserts nothing); and any
successful createTriage leaves at most one triage record for the
appointment, so the only way to change an existing triage is the
explicit update operation. -/
theorem c5_triage_unique (data : NurseTriageCreate)
    (uid role triage_id now : String) (db : DB)
    (hrole : role ∈ (["nurse", "doctor", "admin"] : List String))
    (hapt : ∃ apt ∈ db.appointments, apt.id = data.appointmentId) :
    ((∃ t ∈ db.triages, t.appointmentId = data.appointmentId) →
      create_triage_assessment data uid role triage_id now db =
        .error ⟨400, "Appointment already triaged. Use PATCH to update."⟩) ∧
    (∀ db', create_triage_assessment data uid role triage_id now db = .ok db' →
      triageCount data.appointmentId db' ≤ 1) := by
  have hfind : ∃ a, db.appointments.find?
      (fun a => decide (a.id = data.appointmentId)) = some a := by
    have hs : (db.appointments.find?
        (fun a => decide (a.id = data.appointmentId))).isSome := by
      rw [List.find?_isSome]
      obtain ⟨apt, hmem, hid⟩ := hapt
      exact ⟨apt, hmem, by simp [hid]⟩
    exact Option.isSome_iff_exists.mp hs
  obtain ⟨a, ha⟩ := hfind
  constructor
  · rintro ⟨t, htmem, htid⟩
    have hne : (db.triages.filter fun t =>
        decide (t.appointmentId = data.appointmentId)) ≠ [] := by
      intro hnil
      rw [List.filter_eq_nil_iff] at hnil
      exact hnil t htmem (by simp [htid])
    unfold create_triage_assessment
    rw [if_neg (not_not_intro hrole)]
    simp only [ha]
    rw [if_pos hne]
  · intro db' h
    unfold create_triage_assessment at h
    rw [if_neg (not_not_intro hrole)] at h
    simp only [ha] at h
    by_cases hfe : (db.triages.filter fun t =>
        decide (t.appointmentId = data.appointmentId)) = []
    · rw [if_neg (not_not_intro hfe)] at h
      by_cases hrec : data.recommendedAction = "proceed_to_doctor"
      · rw [if_pos hrec] at h
        injection h with h2
        subst h2
        simp [triageCount, List.filter_append, hfe]
      · rw [if_neg hrec] at h
        injection h with h2
        subst h2
        simp [triageCount, List.filter_append, hfe]
    · rw [if_pos hfe] at h
      exact absurd h (by simp)

/-- Claim C5 witness: on the concrete already-triaged appointment a
second submission fails with the Conflict error. -/
theorem c5_witness :
    create_triage_assessment c5_data "nurseB" "nurse" "tr2"
      "2026-10-12T12:00:00" c5_db =
      .error ⟨400, "Appointment already triaged. Use PATCH to update."⟩ := by
  have h := c5_triage_unique c5_data "nurseB" "nurse" "tr2"
    "2026-10-12T12:00:00" c5_db (by decide) (by decide)
  exact h.1 (by decide)
/-- Claim C3: a successful cancel_booking on a booking with a linked
appointment, invoice and conversation cancels the booking, cancels the
appointment, cancels the invoice, reverts the conversation to active
with booking_id cleared, and appends a system message, all within the
one operation. -/
theorem c3_cancel_booking_propagation (booking_id caller msg_id : String)
    (db : DB) (booking : BookingRec) (aid iid cid : String)
    (hfind : db.bookings.find? (fun b => decide (b.id = booking_id)) =
      some booking)
    (hperm : ¬ (get_user_role caller db = "patient" ∧
      booking.patientId ≠ caller))
    (ha : booking.appointmentId = some aid)
    (hi : booking.invoiceId = some iid)
    (hc : booking.conversationId = some cid) :
    ∃ db', cancel_booking booking_id caller msg_id db = .ok db' ∧
      (∀ b ∈ db'.bookings, b.id = booking_id → b.status = "cancelled") ∧
      (∀ a ∈ db'.appointments, a.id = aid → a.status = "cancelled") ∧
      (∀ i ∈ db'.invoices, i.id = iid → i.status = "cancelled") ∧
      (∀ c ∈ db'.conversations, c.id = cid →
        c.status = "active" ∧ c.bookingId = none) ∧
      (∃ m ∈ db'.chatMessages, m.id = msg_id ∧ m.conversationId = cid ∧
        m.senderRole = "system" ∧ m.messageType = "system") := by
  unfold cancel_booking
  simp only [hfind]
  rw [if_neg hperm]
  simp only [ha, hi, hc]
  refine ⟨_, rfl, ?_, ?_, ?_, ?_, ?_⟩
  · intro b hb hbid
    exact @updateById_mem_prop BookingRec (fun b => b.status = "cancelled")
      BookingRec.id booking_id (fun b => { b with status := "cancelled" })
      db.bookings (fun r _ => rfl) b hb hbid
  · intro a hmem haid
    exact @updateById_mem_prop ApptRec (fun a => a.status = "cancelled")
      ApptRec.id aid (fun a => { a with status := "cancelled" })
      db.appointments (fun r _ => rfl) a hmem haid
  · intro i hmem hiid
    exact @updateById_mem_prop InvoiceRec (fun i => i.status = "cancelled")
      InvoiceRec.id iid (fun i => { i with status := "cancelled" })
      db.invoices (fun r _ => rfl) i hmem hiid
  · intro c hmem hcid
    exact @updateById_mem_prop ConvRec
      (fun c => c.status = "active" ∧ c.bookingId = none)
      ConvRec.id cid cancel_booking_conv_update db.conversations
      (fun r _ => ⟨rfl, rfl⟩) c hmem hcid
  · simp only [List.mem_append, List.mem_singleton]
    exact ⟨_, Or.inr rfl, rfl, rfl, rfl, rfl⟩

/-- Claim C3 witness: the propagation evaluated on the concrete fully
linked booking. -/
theorem c3_witness :
    ∃ db', cancel_booking "bk1" "adm1" "sm1" c3_db = .ok db' ∧
      (∀ b ∈ db'.bookings, b.id = "bk1" → b.status = "cancelled") ∧
      (∀ a ∈ db'.appointments, a.id = "appt1" → a.status = "cancelled") ∧
      (∀ i ∈ db'.invoices, i.id = "inv1" → i.status = "cancelled") ∧
      (∀ c ∈ db'.conversations, c.id = "conv1" →
        c.status = "active" ∧ c.bookingId = none) ∧
      (∃ m ∈ db'.chatMessages, m.id = "sm1" ∧ m.conversationId = "conv1" ∧
        m.senderRole = "system" ∧ m.messageType = "system") :=
  c3_cancel_booking_propagation "bk1" "adm1" "sm1" c3_db c3_bk
    "appt1" "inv1" "conv1" (by decide) (by decide) (by decide) (by decide)
    (by decide)
theorem mem_updateById_append_last {α : Type} (getId : α → String)
    (i : String) (g : α → α) (l : List α) (x : α) (hx : getId x = i) :
    g x ∈ updateById getId i g (l ++ [x]) := by
  simp only [updateById, List.map_append, List.map_cons, List.map_nil]
  refine List.mem_append_right _ ?_
  simp [hx]

/-- Claim C2 (amended): a successful createBooking for a teleconsultation
with cash billing and a linked conversation yields a confirmed Booking
linked to the new appointment and invoice, a new Appointment with status
confirmed and consultation type video carrying no booking kind (the
insert sets no booking_type; the claim said kind scheduled), an Invoice
with amount 260 copied from the fee table and status pending, the linked
conversation moved to status booked with booking_id set, and a system
message appended. -/
theorem c2_amended_create_booking (caller : String) (data : BookingCreate)
    (appt_id booking_id invoice_id msg_id cid : String) (db : DB)
    (pp cp : Profile)
    (hrole : get_user_role caller db ∈
      (["admin", "nurse", "doctor", "receptionist"] : List String))
    (hpp : get_user_profile data.patientId db = some pp)
    (hcp : get_user_profile data.clinicianId db = some cp)
    (hcr : get_user_role data.clinicianId db ∈
      (["nurse", "doctor"] : List String))
    (hsvc : data.serviceType = ServiceType.teleconsultation)
    (hbill : data.billingType = PatientBillingType.cash)
    (hconv : data.conversationId = some cid) :
    ∃ db', create_booking caller data appt_id booking_id invoice_id msg_id
        db = .ok db' ∧
      (∃ b ∈ db'.bookings, b.id = booking_id ∧ b.status = "confirmed" ∧
        b.appointmentId = some appt_id ∧ b.conversationId = some cid ∧
        b.invoiceId = some invoice_id) ∧
      (∃ a ∈ db'.appointments, a.id = appt_id ∧ a.status = "confirmed" ∧
        a.consultationType = "video" ∧ a.bookingType = none) ∧
      (∃ i ∈ db'.invoices, i.id = invoice_id ∧ i.bookingId = booking_id ∧
        i.amount = (FEE_SCHEDULE ServiceType.teleconsultation).price ∧
        i.amount = 260 ∧ i.status = "pending") ∧
      (∀ c ∈ db'.conversations, c.id = cid →
        c.status = "booked" ∧ c.bookingId = some booking_id) ∧
      (∃ m ∈ db'.chatMessages, m.id = msg_id ∧ m.conversationId = cid ∧
        m.messageType = "system") := by
  unfold create_booking
  rw [if_neg (not_not_intro hrole)]
  simp only [hpp, hcp]
  rw [if_neg (not_not_intro hcr)]
  simp only [hconv, hsvc, hbill]
  rw [if_pos (by refine ⟨?_, ?_⟩ <;> decide)]
  refine ⟨_, rfl, ?_, ?_, ?_, ?_, ?_⟩
  · exact ⟨_, mem_updateById_append_last BookingRec.id booking_id
      (fun b => { b with invoiceId := some invoice_id }) _ _ rfl,
      rfl, rfl, rfl, rfl, rfl⟩
  · exact ⟨_, List.mem_append_right _ (List.mem_singleton_self _),
      rfl, rfl, rfl, rfl⟩
  · refine ⟨_, List.mem_append_right _ (List.mem_singleton_self _),
      rfl, rfl, rfl, ?_, rfl⟩
    show (FEE_SCHEDULE ServiceType.teleconsultation).price = 260
    decide
  · intro c hmem hcid
    exact @updateById_mem_prop ConvRec
      (fun c => c.status = "booked" ∧ c.bookingId = some booking_id)
      ConvRec.id cid (link_booking_update booking_id) db.conversations
      (fun r _ => ⟨rfl, rfl⟩) c hmem hcid
  · exact ⟨_, List.mem_append_right _ (List.mem_singleton_self _),
      rfl, rfl, rfl⟩

/-- Claim C2 witness: the booking-creation effects evaluated on the
concrete receptionist scenario. -/
theorem c2_witness :
    ∃ db', create_booking "rec1" c2_data "appt1" "bk1" "inv1" "msg1"
        c2_db = .ok db' ∧
      (∃ b ∈ db'.bookings, b.id = "bk1" ∧ b.status = "confirmed" ∧
        b.appointmentId = some "appt1" ∧ b.conversationId = some "conv1" ∧
        b.invoiceId = some "inv1") ∧
      (∃ a ∈ db'.appointments, a.id = "appt1" ∧ a.status = "confirmed" ∧
        a.consultationType = "video" ∧ a.bookingType = none) ∧
      (∃ i ∈ db'.invoices, i.id = "inv1" ∧ i.bookingId = "bk1" ∧
        i.amount = (FEE_SCHEDULE ServiceType.teleconsultation).price ∧
        i.amount = 260 ∧ i.status = "pending") ∧
      (∀ c ∈ db'.conversations, c.id = "conv1" →
        c.status = "booked" ∧ c.bookingId = some "bk1") ∧
      (∃ m ∈ db'.chatMessages, m.id = "msg1" ∧ m.conversationId = "conv1" ∧
        m.messageType = "system") :=
  c2_amended_create_booking "rec1" c2_data "appt1" "bk1" "inv1" "msg1"
    "conv1" c2_db ⟨"pat1", "Ada", "Smith"⟩ ⟨"cli1", "Eve", "Jones"⟩
    (by decide) (by decide) (by decide) (by decide) rfl rfl rfl

/-- Claim C10: a successful send_message stores the message with its full
content and updates the parent conversation alone: last_message becomes
the first 100 characters of the content, last_message_at is set,
unread_count grows by exactly one, and status, receptionist_id,
patient_type and booking_id are unchanged (the update function touches
no other field). -/
theorem c10_send_message_effects (conversation_id : String)
    (data : MessageCreate) (uid msg_id now : String) (db : DB)
    (conv : ConvRec)
    (hfind : db.conversations.find?
      (fun c => decide (c.id = conversation_id)) = some conv)
    (h1 : ¬ (get_user_role uid db = "patient" ∧ conv.patientId ≠ uid))
    (h2 : ¬ (get_user_role uid db ≠ "patient" ∧
      conv.receptionistId ≠ some uid ∧ get_user_role uid db ≠ "admin")) :
    ∃ db', send_message conversation_id data uid msg_id now db = .ok db' ∧
      (∃ m ∈ db'.chatMessages, m.id = msg_id ∧
        m.conversationId = conversation_id ∧ m.content = data.content) ∧
      (∀ c ∈ db.conversations, c.id = conversation_id →
        msg_conv_update data.content now c ∈ db'.conversations) ∧
      (∀ c ∈ db.conversations, c.id ≠ conversation_id →
        c ∈ db'.conversations) ∧
      (∀ c : ConvRec,
        (msg_conv_update data.content now c).status = c.status ∧
        (msg_conv_update data.content now c).receptionistId =
          c.receptionistId ∧
        (msg_conv_update data.content now c).patientType = c.patientType ∧
        (msg_conv_update data.content now c).bookingId = c.bookingId ∧
        (msg_conv_update data.content now c).lastMessage =
          some (take100 data.content) ∧
        (msg_conv_update data.content now c).lastMessageAt = some now ∧
        (msg_conv_update data.content now c).unreadCount =
          c.unreadCount + 1) := by
  unfold send_message
  simp only [hfind]
  rw [if_neg h1, if_neg h2]
  refine ⟨_, rfl, ?_, ?_, ?_, ?_⟩
  · exact ⟨_, List.mem_append_right _ (List.mem_singleton_self _),
      rfl, rfl, rfl⟩
  · intro c hmem hcid
    simp only [updateById, List.mem_map]
    exact ⟨c, hmem, by rw [if_pos hcid]⟩
  · intro c hmem hcid
    simp only [updateById, List.mem_map]
    exact ⟨c, hmem, by rw [if_neg hcid]⟩
  · intro c
    exact ⟨rfl, rfl, rfl, rfl, rfl, rfl, rfl⟩

/-- Claim C10 witness: the send-message effects evaluated on the concrete
claimed conversation, the sender being its patient. -/
theorem c10_witness :
    ∃ db', send_message "cv10" c10_data "pat10" "m10"
        "2026-10-12T13:00:00" c10_db = .ok db' ∧
      (∃ m ∈ db'.chatMessages, m.id = "m10" ∧
        m.conversationId = "cv10" ∧ m.content = c10_data.content) ∧
      (∀ c ∈ c10_db.conversations, c.id = "cv10" →
        msg_conv_update c10_data.content "2026-10-12T13:00:00" c ∈
          db'.conversations) ∧
      (∀ c ∈ c10_db.conversations, c.id ≠ "cv10" →
        c ∈ db'.conversations) ∧
      (∀ c : ConvRec,
        (msg_conv_update c10_data.content "2026-10-12T13:00:00" c).status =
          c.status ∧
        (msg_conv_update c10_data.content
          "2026-10-12T13:00:00" c).receptionistId = c.receptionistId ∧
        (msg_conv_update c10_data.content
          "2026-10-12T13:00:00" c).patientType = c.patientType ∧
        (msg_conv_update c10_data.content
          "2026-10-12T13:00:00" c).bookingId = c.bookingId ∧
        (msg_conv_update c10_data.content
          "2026-10-12T13:00:00" c).lastMessage =
          some (take100 c10_data.content) ∧
        (msg_conv_update c10_data.content
          "2026-10-12T13:00:00" c).lastMessageAt =
          some "2026-10-12T13:00:00" ∧
        (msg_conv_update c10_data.content
          "2026-10-12T13:00:00" c).unreadCount = c.unreadCount + 1) :=
  c10_send_message_effects "cv10" c10_data "pat10" "m10"
    "2026-10-12T13:00:00" c10_db c10_cv (by decide) (by decide) (by decide)
theorem run_claims_all_conflict (cid now : String)
    (callers : List (String × String)) (db : DB) (conv : ConvRec)
    (hfind : db.conversations.find? (fun c => decide (c.id = cid)) =
      some conv)
    (hassigned : conv.receptionistId.isSome = true)
    (hroles : ∀ p ∈ callers, get_user_role p.1 db ∈
      (["admin", "nurse", "doctor"] : List String)) :
    (run_claims cid now callers db).2 =
      callers.map fun _ => some ⟨400, "Conversation already assigned"⟩ := by
  induction callers with
  | nil => rfl
  | cons p rest ih =>
    obtain ⟨uid, mid⟩ := p
    have hc : claim_conversation cid uid mid now db =
        .error ⟨400, "Conversation already assigned"⟩ := by
      unfold claim_conversation
      rw [if_neg (not_not_intro (hroles (uid, mid) (List.mem_cons_self _ _)))]
      simp only [hfind]
      rw [if_pos hassigned]
    simp only [run_claims, hc, List.map_cons]
    rw [ih fun q hq => hroles q (List.mem_cons_of_mem _ hq)]

/-- Claim C6: claiming an unassigned conversation succeeds for an
authorized caller, setting the receptionist, moving the status to active
and appending a system message; and a sequence of N claim calls by
distinct authorized claimers on the same conversation produces exactly
one success (the first) while every later caller receives the 400
Conflict error.  Distinctness of the callers mirrors the claim but is
not needed by the code: any repeat caller is likewise rejected. -/
theorem c6_claim_exclusive (cid now u1 m1 : String)
    (rest : List (String × String)) (db : DB) (conv : ConvRec)
    (hfind : db.conversations.find? (fun c => decide (c.id = cid)) =
      some conv)
    (hunassigned : conv.receptionistId = none)
    (hroles : ∀ p ∈ (u1, m1) :: rest, get_user_role p.1 db ∈
      (["admin", "nurse", "doctor"] : List String))
    (hdistinct : ((u1, m1) :: rest).Pairwise fun p q => p.1 ≠ q.1) :
    (∃ db1, claim_conversation cid u1 m1 now db = .ok db1 ∧
      (∀ c ∈ db1.conversations, c.id = cid →
        c.receptionistId = some u1 ∧ c.status = "active") ∧
      (∃ m ∈ db1.chatMessages, m.id = m1 ∧ m.conversationId = cid ∧
        m.senderRole = "system" ∧ m.messageType = "system")) ∧
    (run_claims cid now ((u1, m1) :: rest) db).2 =
      none ::
        (rest.map fun _ => some ⟨400, "Conversation already assigned"⟩) := by
  have hrole1 := hroles (u1, m1) (List.mem_cons_self _ _)
  have hclaim : ∃ db1, claim_conversation cid u1 m1 now db = .ok db1 ∧
      db1.conversations = updateById ConvRec.id cid
        (claim_conv_update u1 (chatDisplayName u1 db) now)
        db.conversations ∧
      db1.roles = db.roles ∧
      (∃ m ∈ db1.chatMessages, m.id = m1 ∧ m.conversationId = cid ∧
        m.senderRole = "system" ∧ m.messageType = "system") := by
    unfold claim_conversation
    rw [if_neg (not_not_intro hrole1)]
    simp only [hfind, hunassigned, Option.isSome_none, Bool.false_eq_true,
      if_false]
    exact ⟨_, rfl, rfl, rfl,
      ⟨_, List.mem_append_right _ (List.mem_singleton_self _),
        rfl, rfl, rfl, rfl⟩⟩
  obtain ⟨db1, hcl, hconvs, hroles1, hmsg⟩ := hclaim
  constructor
  · refine ⟨db1, hcl, ?_, hmsg⟩
    intro c hmem hcid
    rw [hconvs] at hmem
    exact @updateById_mem_prop ConvRec
      (fun c => c.receptionistId = some u1 ∧ c.status = "active")
      ConvRec.id cid (claim_conv_update u1 (chatDisplayName u1 db) now)
      db.conversations (fun r _ => ⟨rfl, rfl⟩) c hmem hcid
  · simp only [run_claims, hcl, List.map_cons]
    have hfind1 : db1.conversations.find?
        (fun c => decide (c.id = cid)) =
        some (claim_conv_update u1 (chatDisplayName u1 db) now conv) := by
      rw [hconvs,
        find?_updateById ConvRec.id cid
          (claim_conv_update u1 (chatDisplayName u1 db) now)
          db.conversations (fun r => rfl),
        hfind]
      rfl
    rw [run_claims_all_conflict cid now rest db1
      (claim_conv_update u1 (chatDisplayName u1 db) now conv) hfind1 rfl
      (fun q hq => by
        have he : get_user_role q.1 db1 = get_user_role q.1 db := by
          unfold get_user_role
          rw [hroles1]
        rw [he]
        exact hroles q (List.mem_cons_of_mem _ hq))]

/-- Claim C6 witness: two distinct authorized claimers on the concrete
unassigned conversation; the first succeeds and the second receives the
Conflict error. -/
theorem c6_witness :
    (∃ db1, claim_conversation "cv1" "n1" "mA" "2026-10-12T09:00:00"
        c6_db = .ok db1 ∧
      (∀ c ∈ db1.conversations, c.id = "cv1" →
        c.receptionistId = some "n1" ∧ c.status = "active") ∧
      (∃ m ∈ db1.chatMessages, m.id = "mA" ∧ m.conversationId = "cv1" ∧
        m.senderRole = "system" ∧ m.messageType = "system")) ∧
    (run_claims "cv1" "2026-10-12T09:00:00" [("n1", "mA"), ("n2", "mB")]
        c6_db).2 =
      none :: [some ⟨400, "Conversation already assigned"⟩] :=
  c6_claim_exclusive "cv1" "2026-10-12T09:00:00" "n1" "mA" [("n2", "mB")]
    c6_db c6_cv (by decide) (by decide) (by decide) (by decide)
